import Mathlib

/-!
Shallow embedding of the traffic-intersection scheduling core
(`backend/flask_app/schedulers.py`).

Python floats are modelled as rationals (`ℚ`), queue counts as `Nat`,
Python dicts as association lists (first binding wins, missing key
defaults to zero), and raised exceptions as `Except SchedError`.
Phase identifiers come from the closed set of the data model
(`NS_green`, `EW_green`, `NS_yellow`, `EW_yellow`, `all_red`);
`current_phase.replace("green", "yellow")` restricted to that set is
the function `yellow_of` below.
-/

namespace TrafficSched

/-- The closed set of signal phase identifiers. -/
inductive PhaseId
  | NS_green
  | EW_green
  | NS_yellow
  | EW_yellow
  | all_red
deriving DecidableEq

/-- `EmergencyVehicle` dataclass. -/
structure EmergencyVehicle where
  direction : String
  time_to_intersection : ℚ
  vehicle_id : String
  priority : Int
deriving DecidableEq

/-- `IntersectionState` dataclass; dicts become association lists. -/
structure IntersectionState where
  queues : List (String × Nat)
  waiting_times : List (String × List ℚ)
  arrival_rates : List (String × ℚ)
  emergency : List EmergencyVehicle
  current_phase : PhaseId
  sim_time : ℚ
deriving DecidableEq

/-- `Phase` dataclass. -/
structure Phase where
  phase : PhaseId
  duration : ℚ
  preemptable : Bool
deriving DecidableEq

abbrev ActionPlan := List Phase

/-- `SchedulingPolicy` enum. -/
inductive SchedulingPolicy
  | ROUND_ROBIN
  | SHORTEST_JOB_FIRST
  | PRIORITY
  | META
deriving DecidableEq

/-- The exceptions the scheduler can raise. -/
inductive SchedError
  | unknownDirection (d : String)
  | indexError
  | emptySequence
  | unsupportedPolicy
  | zeroDivisionError
deriving DecidableEq

/-- `policy_params` dictionary (the `debug` flag only controls logging
and is omitted). -/
structure PolicyParams where
  min_green : ℚ
  max_green : ℚ
  yellow_duration : ℚ
  all_red_duration : ℚ
  rr_cycle_order : List PhaseId
  low_load_threshold : ℚ
  high_variance_threshold : ℚ
  sjf_horizon : ℚ
  emergency_preempt_buffer : ℚ
  min_switch_interval : ℚ
  emergency_clear_duration : ℚ
deriving DecidableEq

/-- `_get_default_params`. -/
def default_params : PolicyParams :=
  { min_green := 7
    max_green := 60
    yellow_duration := 3
    all_red_duration := 1
    rr_cycle_order := [PhaseId.NS_green, PhaseId.EW_green]
    low_load_threshold := 2
    high_variance_threshold := 4
    sjf_horizon := 30
    emergency_preempt_buffer := 10
    min_switch_interval := 5
    emergency_clear_duration := 15 }

/-- `d.get(k, 0)`-style lookup on an association list. -/
def dict_get {β : Type} (m : List (String × β)) (k : String) (dflt : β) : β :=
  (m.lookup k).getD dflt

/-- `state.queues.get(d, 0)`. -/
def getQ (s : IntersectionState) (d : String) : Nat :=
  dict_get s.queues d 0

/-- `current_phase.replace("green", "yellow")` on the closed phase set:
the two greens turn into their yellows, every other name is left
unchanged (it has no `green` substring). -/
def yellow_of : PhaseId → PhaseId
  | PhaseId.NS_green => PhaseId.NS_yellow
  | PhaseId.EW_green => PhaseId.EW_yellow
  | p => p

/-- `_schedule_transition_with_yellow` (the `target_phase` argument is
unused in the source as well). -/
def schedule_transition_with_yellow (pp : PolicyParams) (current_phase : PhaseId)
    (target_phase : PhaseId) : List Phase :=
  let _ := target_phase
  (if current_phase ≠ PhaseId.all_red then
      [⟨yellow_of current_phase, pp.yellow_duration, false⟩]
    else []) ++ [⟨PhaseId.all_red, pp.all_red_duration, false⟩]

/-- `_get_green_phase_for_direction`; raises `ValueError` on an
unrecognized direction string. -/
def get_green_phase_for_direction (d : String) : Except SchedError PhaseId :=
  if d = "N" ∨ d = "S" then Except.ok PhaseId.NS_green
  else if d = "E" ∨ d = "W" then Except.ok PhaseId.EW_green
  else Except.error (SchedError.unknownDirection d)

/-- `_get_queues_for_phase`. -/
def get_queues_for_phase (s : IntersectionState) (ph : PhaseId) : List (String × Nat) :=
  match ph with
  | PhaseId.NS_green => [("N", getQ s "N"), ("S", getQ s "S")]
  | PhaseId.EW_green => [("E", getQ s "E"), ("W", getQ s "W")]
  | _ => []

/-- `sum(self._get_queues_for_phase(state, phase).values())`. -/
def sum_queues_for_phase (s : IntersectionState) (ph : PhaseId) : Nat :=
  ((get_queues_for_phase s ph).map Prod.snd).sum

/-- `_compute_average_queue_length`. -/
def compute_average_queue_length (s : IntersectionState) : ℚ :=
  let qs := s.queues.map Prod.snd
  if qs.length = 0 then 0
  else (qs.map fun n => (n : ℚ)).sum / (qs.length : ℚ)

/-- `_compute_queue_variance`. -/
def compute_queue_variance (s : IntersectionState) : ℚ :=
  let qs := (s.queues.map Prod.snd).map fun n => (n : ℚ)
  if qs.length < 2 then 0
  else
    let m := qs.sum / (qs.length : ℚ)
    (qs.map fun q => (q - m) ^ 2).sum / (qs.length : ℚ)

/-- `_estimate_jobs_in_horizon`. -/
def estimate_jobs_in_horizon (s : IntersectionState) (ph : PhaseId) (horizon : ℚ) : ℚ :=
  let dirs : List String :=
    match ph with
    | PhaseId.NS_green => ["N", "S"]
    | PhaseId.EW_green => ["E", "W"]
    | _ => []
  (dirs.map fun d => dict_get s.arrival_rates d 0 * horizon).sum

/-- The emergency-bonus loop of `_calculate_direction_priority`:
`priority += 100 / ev.priority` for each emergency vehicle in the
scored direction, left to right; a vehicle with `priority == 0` raises
`ZeroDivisionError` at that point. -/
def emergency_priority_bonus (d : String) : ℚ → List EmergencyVehicle →
    Except SchedError ℚ
  | acc, [] => Except.ok acc
  | acc, ev :: rest =>
    if ev.direction = d then
      if ev.priority = 0 then Except.error SchedError.zeroDivisionError
      else emergency_priority_bonus d (acc + 100 / (ev.priority : ℚ)) rest
    else emergency_priority_bonus d acc rest

/-- `_calculate_direction_priority`; fails with `ZeroDivisionError`
when an emergency vehicle in the scored direction has `priority == 0`. -/
def calculate_direction_priority (s : IntersectionState) (d : String) :
    Except SchedError ℚ :=
  let queue_length : ℚ := (getQ s d : ℚ)
  let wt := dict_get s.waiting_times d []
  let base := queue_length * 2
  let with_wait := if wt.length ≠ 0 then base + (wt.sum / (wt.length : ℚ)) / 10 else base
  emergency_priority_bonus d with_wait s.emergency

/-- `_has_urgent_emergency`. -/
def has_urgent_emergency (pp : PolicyParams) (s : IntersectionState) : Bool :=
  s.emergency.any fun ev =>
    decide (ev.time_to_intersection ≤ pp.emergency_preempt_buffer) ||
    decide (0 < getQ s ev.direction)

/-- Python's `min(xs, key=...)` / `max(xs, key=...)`: fold that keeps the
first element winning the strict comparison. -/
def pickMinBy {α : Type} (lt : α → α → Bool) (x : α) (xs : List α) : α :=
  xs.foldl (fun b a => if lt a b then a else b) x

/-- Key `lambda ev: ev.time_to_intersection`, compared with `<`. -/
def etaLt (a b : EmergencyVehicle) : Bool :=
  decide (a.time_to_intersection < b.time_to_intersection)

/-- Key `lambda ev: (ev.time_to_intersection, ev.priority)`, compared
with Python's lexicographic tuple `<`. -/
def etaPrioLt (a b : EmergencyVehicle) : Bool :=
  decide (a.time_to_intersection < b.time_to_intersection) ||
  (decide (a.time_to_intersection = b.time_to_intersection) &&
    decide (a.priority < b.priority))

/-- The distinct elements of a list of direction strings (kept as a
plain recursion so that it evaluates by unfolding). -/
def distinct_dirs : List String → List String
  | [] => []
  | d :: rest =>
    let r := distinct_dirs rest
    if d ∈ r then r else d :: r

/-- The distinct keys of `emergency_by_direction` (only the number of
distinct directions and the per-direction counts are consulted). -/
def emergency_directions (evs : List EmergencyVehicle) : List String :=
  distinct_dirs (evs.map fun ev => ev.direction)

/-- The selection step of `_handle_emergency`: FCFS on ETA when several
directions have emergencies, otherwise `min` on `(eta, priority)`.
`min` of an empty sequence raises, hence `none`. -/
def select_emergency : List EmergencyVehicle → Option EmergencyVehicle
  | [] => none
  | e :: rest =>
    if 1 < (emergency_directions (e :: rest)).length then
      some (pickMinBy etaLt e rest)
    else
      some (pickMinBy etaPrioLt e rest)

/-- `_handle_emergency`. -/
def handle_emergency (pp : PolicyParams) (s : IntersectionState) :
    Except SchedError ActionPlan :=
  match select_emergency s.emergency with
  | none => Except.error SchedError.emptySequence
  | some sel =>
    match get_green_phase_for_direction sel.direction with
    | Except.error e => Except.error e
    | Except.ok target_phase =>
      let trans :=
        if s.current_phase ≠ target_phase ∧ s.current_phase ≠ PhaseId.all_red then
          schedule_transition_with_yellow pp s.current_phase target_phase
        else []
      let emergency_count :=
        (s.emergency.filter fun ev => ev.direction = sel.direction).length
      let emergency_duration :=
        min (pp.emergency_clear_duration + ((emergency_count : ℚ) - 1) * 5)
          pp.max_green
      Except.ok (trans ++ [⟨target_phase, emergency_duration, false⟩])

/-- `_round_robin_schedule`. -/
def round_robin_schedule (pp : PolicyParams) (s : IntersectionState) :
    Except SchedError ActionPlan :=
  let cycle := pp.rr_cycle_order
  let next_index :=
    match cycle.findIdx? fun ph => ph = s.current_phase with
    | some i => (i + 1) % cycle.length
    | none => 0
  match cycle[next_index]? with
  | none => Except.error SchedError.indexError
  | some next_phase =>
    let trans :=
      if s.current_phase ≠ next_phase ∧ s.current_phase ≠ PhaseId.all_red then
        schedule_transition_with_yellow pp s.current_phase next_phase
      else []
    let total_vehicles := sum_queues_for_phase s next_phase
    let duration :=
      max pp.min_green
        (min pp.max_green (pp.min_green + (total_vehicles : ℚ) * 2))
    Except.ok (trans ++ [⟨next_phase, duration, true⟩])

/-- The per-phase job estimate of `_sjf_schedule`. -/
def sjf_jobs (pp : PolicyParams) (s : IntersectionState) (ph : PhaseId) : ℚ :=
  (sum_queues_for_phase s ph : ℚ) + estimate_jobs_in_horizon s ph pp.sjf_horizon

/-- `_sjf_schedule`.  The `phase_jobs` dict deduplicates repeated cycle
entries, but duplicates carry equal job values, so `min` over the dict
keys coincides with the first-minimum over the raw cycle list. -/
def sjf_schedule (pp : PolicyParams) (s : IntersectionState) :
    Except SchedError ActionPlan :=
  match pp.rr_cycle_order with
  | [] => Except.ok []
  | ph :: rest =>
    let next_phase :=
      pickMinBy (fun a b => decide (sjf_jobs pp s a < sjf_jobs pp s b)) ph rest
    let trans :=
      if s.current_phase ≠ next_phase ∧ s.current_phase ≠ PhaseId.all_red then
        schedule_transition_with_yellow pp s.current_phase next_phase
      else []
    let job_count := sjf_jobs pp s next_phase
    let duration :=
      max pp.min_green (min pp.max_green (job_count * 3))
    Except.ok (trans ++ [⟨next_phase, duration, true⟩])

/-- The `direction_priorities` dict of `_priority_schedule`, keyed
`N, E, S, W` in insertion order. -/
def direction_priorities_key (pN pE pS pW : ℚ) (d : String) : ℚ :=
  if d = "N" then pN else if d = "E" then pE
  else if d = "S" then pS else if d = "W" then pW else 0

/-- `max(direction_priorities, key=direction_priorities.get)`: the
first direction in `N, E, S, W` order attaining the maximal score. -/
def best_direction_of (pN pE pS pW : ℚ) : String :=
  pickMinBy (fun a b =>
    decide (direction_priorities_key pN pE pS pW b <
      direction_priorities_key pN pE pS pW a)) "N" ["E", "S", "W"]

/-- `_priority_schedule`: scores the four directions in `N, E, S, W`
order (each score can raise `ZeroDivisionError`, and the first raise
propagates, as in the Python loop), then takes the first strict
maximum. -/
def priority_schedule (pp : PolicyParams) (s : IntersectionState) :
    Except SchedError ActionPlan :=
  match calculate_direction_priority s "N" with
  | Except.error e => Except.error e
  | Except.ok pN =>
  match calculate_direction_priority s "E" with
  | Except.error e => Except.error e
  | Except.ok pE =>
  match calculate_direction_priority s "S" with
  | Except.error e => Except.error e
  | Except.ok pS =>
  match calculate_direction_priority s "W" with
  | Except.error e => Except.error e
  | Except.ok pW =>
  let best_direction := best_direction_of pN pE pS pW
  match get_green_phase_for_direction best_direction with
  | Except.error e => Except.error e
  | Except.ok next_phase =>
    let trans :=
      if s.current_phase ≠ next_phase ∧ s.current_phase ≠ PhaseId.all_red then
        schedule_transition_with_yellow pp s.current_phase next_phase
      else []
    let queue_length := getQ s best_direction
    let base_duration := max pp.min_green ((queue_length : ℚ) * (5 / 2))
    let duration := min pp.max_green base_duration
    Except.ok (trans ++ [⟨next_phase, duration, true⟩])

/-- `_select_policy`. -/
def select_policy (pp : PolicyParams) (s : IntersectionState) : SchedulingPolicy :=
  if s.emergency ≠ [] then SchedulingPolicy.PRIORITY
  else if compute_average_queue_length s < pp.low_load_threshold then
    SchedulingPolicy.ROUND_ROBIN
  else if pp.high_variance_threshold < compute_queue_variance s then
    SchedulingPolicy.SHORTEST_JOB_FIRST
  else SchedulingPolicy.PRIORITY

/-- `schedule`. -/
def schedule (pp : PolicyParams) (s : IntersectionState)
    (policy : SchedulingPolicy) : Except SchedError ActionPlan :=
  if has_urgent_emergency pp s then handle_emergency pp s
  else
    let policy1 :=
      if policy = SchedulingPolicy.META then select_policy pp s else policy
    match policy1 with
    | SchedulingPolicy.ROUND_ROBIN => round_robin_schedule pp s
    | SchedulingPolicy.SHORTEST_JOB_FIRST => sjf_schedule pp s
    | SchedulingPolicy.PRIORITY => priority_schedule pp s
    | SchedulingPolicy.META => Except.error SchedError.unsupportedPolicy

/-- `simulate_one_step`. -/
def simulate_one_step (s : IntersectionState) (action_plan : ActionPlan) :
    IntersectionState :=
  match action_plan with
  | [] => s
  | next_phase :: _ =>
    { s with
      current_phase := next_phase.phase
      sim_time := s.sim_time + next_phase.duration }

/-- The two green axes. -/
inductive Axis
  | NS
  | EW
deriving DecidableEq

/-- The axis a green phase serves; `none` for non-greens. -/
def green_axis : PhaseId → Option Axis
  | PhaseId.NS_green => some Axis.NS
  | PhaseId.EW_green => some Axis.EW
  | _ => none

def is_green : PhaseId → Bool
  | PhaseId.NS_green => true
  | PhaseId.EW_green => true
  | _ => false

def is_yellow : PhaseId → Bool
  | PhaseId.NS_yellow => true
  | PhaseId.EW_yellow => true
  | _ => false

/-- The duration discipline of the spec: greens within
`[min_green, max_green]`, yellows equal to `yellow_duration`, all-red
equal to `all_red_duration`. -/
def dur_ok (pp : PolicyParams) (ph : Phase) : Prop :=
  (is_green ph.phase = true → pp.min_green ≤ ph.duration ∧ ph.duration ≤ pp.max_green) ∧
  (is_yellow ph.phase = true → ph.duration = pp.yellow_duration) ∧
  (ph.phase = PhaseId.all_red → ph.duration = pp.all_red_duration)

/-- The non-strict version of the lexicographic tuple order
`(time_to_intersection, priority)`. -/
def eta_prio_le (a b : EmergencyVehicle) : Prop :=
  a.time_to_intersection < b.time_to_intersection ∨
    (a.time_to_intersection = b.time_to_intersection ∧ a.priority ≤ b.priority)

/-- Scenario A of the spec: low uniform load, `current_phase = NS_green`. -/
def low_load_state : IntersectionState :=
  { queues := [("N", 1), ("E", 1), ("S", 1), ("W", 1)]
    waiting_times := [("N", [5]), ("E", [5]), ("S", [5]), ("W", [5])]
    arrival_rates := [("N", 1 / 50), ("E", 1 / 50), ("S", 1 / 50), ("W", 1 / 50)]
    emergency := []
    current_phase := PhaseId.NS_green
    sim_time := 100 }

/-- Scenario C of the spec: one urgent emergency from the north while
`EW_green` is active. -/
def emergency_cross_state : IntersectionState :=
  { queues := [("N", 2), ("E", 3), ("S", 1), ("W", 2)]
    waiting_times := [("N", [5, 8]), ("E", [10, 12, 15]), ("S", [7]), ("W", [9, 11])]
    arrival_rates := [("N", 1 / 20), ("E", 7 / 100), ("S", 3 / 100), ("W", 3 / 50)]
    emergency := [⟨"N", 4, "EMG001", 1⟩]
    current_phase := PhaseId.EW_green
    sim_time := 200 }

/-- Parameters whose emergency clear duration sits below `min_green`. -/
def short_clear_params : PolicyParams :=
  { default_params with emergency_clear_duration := 1 }

/-- A state with an urgent emergency whose target green equals the
current phase, so the emergency green is the whole plan. -/
def short_clear_state : IntersectionState :=
  { queues := []
    waiting_times := []
    arrival_rates := []
    emergency := [⟨"N", 4, "EMG002", 1⟩]
    current_phase := PhaseId.NS_green
    sim_time := 0 }

/-- Parameters with an empty round-robin cycle order. -/
def empty_cycle_params : PolicyParams :=
  { default_params with rr_cycle_order := [] }

/-- A state that plainly has directions and work to do. -/
def nonzero_queue_state : IntersectionState :=
  { queues := [("N", 5)]
    waiting_times := []
    arrival_rates := []
    emergency := []
    current_phase := PhaseId.NS_green
    sim_time := 0 }

/-- A state whose only (urgent) emergency comes from an unrecognized
direction string. -/
def bad_direction_state : IntersectionState :=
  { queues := []
    waiting_times := []
    arrival_rates := []
    emergency := [⟨"X", 1, "EMG003", 1⟩]
    current_phase := PhaseId.NS_green
    sim_time := 0 }

/-- Scenario D of the spec: two emergencies on different axes; FCFS on
ETA must pick the northbound one. -/
def multi_emergency_state : IntersectionState :=
  { queues := [("N", 2), ("E", 1), ("S", 3), ("W", 2)]
    waiting_times := []
    arrival_rates := []
    emergency := [⟨"E", 8, "EMG001", 1⟩, ⟨"N", 5, "EMG002", 1⟩]
    current_phase := PhaseId.EW_green
    sim_time := 600 }

/-- A state with a single non-urgent emergency whose `priority` field
is 0: scoring direction N divides `100 / 0`. -/
def zero_priority_state : IntersectionState :=
  { queues := [("N", 0), ("E", 0), ("S", 0), ("W", 0)]
    waiting_times := []
    arrival_rates := []
    emergency := [⟨"N", 100, "EMG004", 0⟩]
    current_phase := PhaseId.NS_green
    sim_time := 0 }

/-- Every plan the scheduler emits is empty, a single phase (when no
transition was needed), or a source-axis yellow followed by an all-red
followed by a single target phase. -/
def plan_shape (pp : PolicyParams) (s : IntersectionState) (plan : ActionPlan) : Prop :=
  plan = [] ∨
  (∃ g d pe, plan = [Phase.mk g d pe] ∧
    (g = s.current_phase ∨ s.current_phase = PhaseId.all_red)) ∨
  (∃ g d pe, s.current_phase ≠ PhaseId.all_red ∧
    plan = [⟨yellow_of s.current_phase, pp.yellow_duration, false⟩,
            ⟨PhaseId.all_red, pp.all_red_duration, false⟩, Phase.mk g d pe])

lemma pickMinBy_cons {α : Type} (lt : α → α → Bool) (x a : α) (l : List α) :
    pickMinBy lt x (a :: l) = pickMinBy lt (if lt a x then a else x) l := rfl

lemma pickMinBy_mem {α : Type} (lt : α → α → Bool) (x : α) (xs : List α) :
    pickMinBy lt x xs = x ∨ pickMinBy lt x xs ∈ xs := by
  induction xs generalizing x with
  | nil => exact Or.inl rfl
  | cons a l ih =>
    rw [pickMinBy_cons]
    by_cases hb : lt a x = true
    · rw [if_pos hb]
      rcases ih a with h | h
      · rw [h]
        exact Or.inr (List.mem_cons_self a l)
      · exact Or.inr (List.mem_cons_of_mem a h)
    · rw [if_neg hb]
      rcases ih x with h | h
      · exact Or.inl h
      · exact Or.inr (List.mem_cons_of_mem a h)

lemma pickMinBy_le_all {α : Type} (lt : α → α → Bool) (le : α → α → Prop)
    (htrans : ∀ a b c, le a b → le b c → le a c)
    (hrefl : ∀ a, le a a)
    (hlt : ∀ a b, lt a b = true → le a b)
    (hnlt : ∀ a b, lt a b = false → le b a)
    (x : α) (xs : List α) :
    le (pickMinBy lt x xs) x ∧ ∀ y ∈ xs, le (pickMinBy lt x xs) y := by
  induction xs generalizing x with
  | nil => exact ⟨hrefl x, by simp⟩
  | cons a l ih =>
    rw [pickMinBy_cons]
    by_cases hb : lt a x = true
    · rw [if_pos hb]
      obtain ⟨h1, h2⟩ := ih a
      refine ⟨htrans _ _ _ h1 (hlt _ _ hb), ?_⟩
      intro y hy
      rcases List.mem_cons.mp hy with hy | hy
      · exact hy ▸ h1
      · exact h2 y hy
    · rw [if_neg hb]
      have hfalse : lt a x = false := by
        cases h2 : lt a x
        · rfl
        · exact absurd h2 hb
      obtain ⟨h1, h2⟩ := ih x
      refine ⟨h1, ?_⟩
      intro y hy
      rcases List.mem_cons.mp hy with hy | hy
      · exact hy ▸ htrans _ _ _ h1 (hnlt _ _ hfalse)
      · exact h2 y hy

lemma eta_prio_le_refl (a : EmergencyVehicle) : eta_prio_le a a :=
  Or.inr ⟨rfl, le_refl _⟩

lemma eta_prio_le_trans (a b c : EmergencyVehicle)
    (hab : eta_prio_le a b) (hbc : eta_prio_le b c) : eta_prio_le a c := by
  rcases hab with h1 | ⟨h1, h2⟩ <;> rcases hbc with h3 | ⟨h3, h4⟩
  · exact Or.inl (lt_trans h1 h3)
  · exact Or.inl (h3 ▸ h1)
  · exact Or.inl (h1 ▸ h3)
  · exact Or.inr ⟨h1.trans h3, le_trans h2 h4⟩

lemma eta_prio_le_of_lt (a b : EmergencyVehicle) (h : etaPrioLt a b = true) :
    eta_prio_le a b := by
  simp only [etaPrioLt, Bool.or_eq_true, Bool.and_eq_true, decide_eq_true_eq] at h
  rcases h with h | ⟨h1, h2⟩
  · exact Or.inl h
  · exact Or.inr ⟨h1, le_of_lt h2⟩

lemma eta_prio_le_of_not_lt (a b : EmergencyVehicle) (h : etaPrioLt a b = false) :
    eta_prio_le b a := by
  unfold etaPrioLt at h
  by_cases h1 : a.time_to_intersection < b.time_to_intersection
  · simp [h1] at h
  · by_cases h2 : a.time_to_intersection = b.time_to_intersection
    · by_cases h3 : a.priority < b.priority
      · simp [h1, h2, h3] at h
      · exact Or.inr ⟨h2.symm, not_lt.mp h3⟩
    · rcases lt_trichotomy a.time_to_intersection b.time_to_intersection with h4 | h4 | h4
      · exact absurd h4 h1
      · exact absurd h4 h2
      · exact Or.inl h4

lemma eta_le_of_lt (a b : EmergencyVehicle) (h : etaLt a b = true) :
    a.time_to_intersection ≤ b.time_to_intersection := by
  simp only [etaLt, decide_eq_true_eq] at h
  exact le_of_lt h

lemma eta_le_of_not_lt (a b : EmergencyVehicle) (h : etaLt a b = false) :
    b.time_to_intersection ≤ a.time_to_intersection := by
  simp only [etaLt, decide_eq_false_iff_not, not_lt] at h
  exact h

lemma transition_eq (pp : PolicyParams) (cur target : PhaseId)
    (h : cur ≠ PhaseId.all_red) :
    schedule_transition_with_yellow pp cur target =
      [⟨yellow_of cur, pp.yellow_duration, false⟩,
       ⟨PhaseId.all_red, pp.all_red_duration, false⟩] := by
  simp [schedule_transition_with_yellow, h]

lemma trans_append_shape (pp : PolicyParams) (cur g : PhaseId) (d : ℚ) (pe : Bool) :
    ((if cur ≠ g ∧ cur ≠ PhaseId.all_red then
        schedule_transition_with_yellow pp cur g else []) ++ [Phase.mk g d pe] =
        [Phase.mk g d pe] ∧ (g = cur ∨ cur = PhaseId.all_red)) ∨
    (cur ≠ PhaseId.all_red ∧
      (if cur ≠ g ∧ cur ≠ PhaseId.all_red then
        schedule_transition_with_yellow pp cur g else []) ++ [Phase.mk g d pe] =
        [⟨yellow_of cur, pp.yellow_duration, false⟩,
         ⟨PhaseId.all_red, pp.all_red_duration, false⟩, Phase.mk g d pe]) := by
  by_cases hc : cur ≠ g ∧ cur ≠ PhaseId.all_red
  · right
    refine ⟨hc.2, ?_⟩
    rw [if_pos hc, transition_eq pp cur g hc.2]
    rfl
  · left
    rw [if_neg hc]
    refine ⟨rfl, ?_⟩
    rcases not_and_or.mp hc with h | h
    · exact Or.inl (not_not.mp h).symm
    · exact Or.inr (not_not.mp h)

lemma get_green_is_green (d : String) (g : PhaseId)
    (h : get_green_phase_for_direction d = Except.ok g) : is_green g = true := by
  unfold get_green_phase_for_direction at h
  split_ifs at h <;> cases h <;> rfl

lemma get_green_err (d : String)
    (h : ¬(d = "N" ∨ d = "S" ∨ d = "E" ∨ d = "W")) :
    get_green_phase_for_direction d = Except.error (SchedError.unknownDirection d) := by
  unfold get_green_phase_for_direction
  rw [if_neg, if_neg] <;> rintro (h1 | h1) <;> exact h (by simp [h1])

lemma select_emergency_mem (evs : List EmergencyVehicle) (sel : EmergencyVehicle)
    (h : select_emergency evs = some sel) : sel ∈ evs := by
  match evs with
  | [] => cases h
  | e :: rest =>
    simp only [select_emergency] at h
    split_ifs at h <;> cases h
    · rcases pickMinBy_mem etaLt e rest with hm | hm
      · rw [hm]
        exact List.mem_cons_self e rest
      · exact List.mem_cons_of_mem e hm
    · rcases pickMinBy_mem etaPrioLt e rest with hm | hm
      · rw [hm]
        exact List.mem_cons_self e rest
      · exact List.mem_cons_of_mem e hm

lemma select_emergency_nonempty (evs : List EmergencyVehicle) (h : evs ≠ []) :
    ∃ sel, select_emergency evs = some sel := by
  match evs with
  | [] => exact absurd rfl h
  | e :: rest =>
    simp only [select_emergency]
    split_ifs <;> exact ⟨_, rfl⟩

lemma urgent_nonempty (pp : PolicyParams) (s : IntersectionState)
    (h : has_urgent_emergency pp s = true) : s.emergency ≠ [] := by
  intro he
  rw [has_urgent_emergency, he] at h
  simp at h

lemma select_policy_ne_meta (pp : PolicyParams) (s : IntersectionState) :
    select_policy pp s ≠ SchedulingPolicy.META := by
  unfold select_policy
  split_ifs <;> simp

lemma trans_append_plan_shape (pp : PolicyParams) (s : IntersectionState)
    (g : PhaseId) (d : ℚ) (pe : Bool) :
    plan_shape pp s
      ((if s.current_phase ≠ g ∧ s.current_phase ≠ PhaseId.all_red then
          schedule_transition_with_yellow pp s.current_phase g else []) ++
        [Phase.mk g d pe]) := by
  rcases trans_append_shape pp s.current_phase g d pe with ⟨heq, hc⟩ | ⟨hne, heq⟩
  · exact Or.inr (Or.inl ⟨g, d, pe, heq, hc⟩)
  · exact Or.inr (Or.inr ⟨g, d, pe, hne, heq⟩)

lemma handle_emergency_shape (pp : PolicyParams) (s : IntersectionState)
    (plan : ActionPlan) (h : handle_emergency pp s = Except.ok plan) :
    plan_shape pp s plan := by
  simp only [handle_emergency] at h
  split at h
  · cases h
  · split at h
    · cases h
    · rw [Except.ok.injEq] at h
      subst h
      exact trans_append_plan_shape pp s _ _ false

lemma round_robin_shape (pp : PolicyParams) (s : IntersectionState)
    (plan : ActionPlan) (h : round_robin_schedule pp s = Except.ok plan) :
    plan_shape pp s plan := by
  simp only [round_robin_schedule] at h
  split at h
  · cases h
  · rw [Except.ok.injEq] at h
    subst h
    exact trans_append_plan_shape pp s _ _ true

lemma sjf_shape (pp : PolicyParams) (s : IntersectionState)
    (plan : ActionPlan) (h : sjf_schedule pp s = Except.ok plan) :
    plan_shape pp s plan := by
  simp only [sjf_schedule] at h
  split at h
  · rw [Except.ok.injEq] at h
    subst h
    exact Or.inl rfl
  · rw [Except.ok.injEq] at h
    subst h
    exact trans_append_plan_shape pp s _ _ true

lemma priority_shape (pp : PolicyParams) (s : IntersectionState)
    (plan : ActionPlan) (h : priority_schedule pp s = Except.ok plan) :
    plan_shape pp s plan := by
  simp only [priority_schedule] at h
  split at h
  · cases h
  · split at h
    · cases h
    · split at h
      · cases h
      · split at h
        · cases h
        · split at h
          · cases h
          · rw [Except.ok.injEq] at h
            subst h
            exact trans_append_plan_shape pp s _ _ true

lemma schedule_shape (pp : PolicyParams) (s : IntersectionState)
    (pol : SchedulingPolicy) (plan : ActionPlan)
    (h : schedule pp s pol = Except.ok plan) :
    plan_shape pp s plan := by
  simp only [schedule] at h
  split at h
  · exact handle_emergency_shape pp s plan h
  · split at h
    · exact round_robin_shape pp s plan h
    · exact sjf_shape pp s plan h
    · exact priority_shape pp s plan h
    · cases h

/-- C1: for every state whose current phase is a green on one axis and
every plan `schedule` returns (under any policy, hence through Round
Robin, SJF, Priority or the emergency handler), if the plan contains a
green on the other axis at position `k`, then the part of the plan
before that green is exactly one yellow of the source axis followed by
exactly one all-red, in that order. -/
theorem C1_green_to_green_safety (pp : PolicyParams) (s : IntersectionState)
    (pol : SchedulingPolicy) (plan : ActionPlan) (a b : Axis) (k : ℕ)
    (hk : k < plan.length)
    (hcur : green_axis s.current_phase = some a)
    (hok : schedule pp s pol = Except.ok plan)
    (hb : green_axis (plan.get ⟨k, hk⟩).phase = some b)
    (hab : a ≠ b) :
    plan.take k = [⟨yellow_of s.current_phase, pp.yellow_duration, false⟩,
      ⟨PhaseId.all_red, pp.all_red_duration, false⟩] ∧
    (plan.take k).countP (fun ph => decide (ph.phase = yellow_of s.current_phase)) = 1 ∧
    (plan.take k).countP (fun ph => decide (ph.phase = PhaseId.all_red)) = 1 := by
  rcases schedule_shape pp s pol plan hok with hempty | ⟨g, d, pe, heq, hc⟩ |
    ⟨g, d, pe, hne, heq⟩
  · subst hempty
    simp at hk
  · exfalso
    rcases hc with hgc | hall
    · subst heq
      have hk0 : k = 0 := by
        simp only [List.length_singleton] at hk
        omega
      subst hk0
      simp only [List.get] at hb
      rw [hgc] at hb
      rw [hcur] at hb
      exact hab (Option.some.injEq a b ▸ hb)
    · rw [hall] at hcur
      simp [green_axis] at hcur
  · subst heq
    cases hphase : s.current_phase with
    | NS_yellow =>
      rw [hphase] at hcur
      simp [green_axis] at hcur
    | EW_yellow =>
      rw [hphase] at hcur
      simp [green_axis] at hcur
    | all_red => exact absurd hphase hne
    | NS_green =>
      have hk3 : k = 0 ∨ k = 1 ∨ k = 2 := by
        simp only [List.length_cons, List.length_nil] at hk
        omega
      rcases hk3 with rfl | rfl | rfl
      · exfalso
        simp only [List.get] at hb
        rw [hphase] at hb
        simp [yellow_of, green_axis] at hb
      · exfalso
        simp only [List.get] at hb
        simp [green_axis] at hb
      · refine ⟨rfl, ?_, ?_⟩ <;>
          simp [List.countP_cons, yellow_of, List.take]
    | EW_green =>
      have hk3 : k = 0 ∨ k = 1 ∨ k = 2 := by
        simp only [List.length_cons, List.length_nil] at hk
        omega
      rcases hk3 with rfl | rfl | rfl
      · exfalso
        simp only [List.get] at hb
        rw [hphase] at hb
        simp [yellow_of, green_axis] at hb
      · exfalso
        simp only [List.get] at hb
        simp [green_axis] at hb
      · refine ⟨rfl, ?_, ?_⟩ <;>
          simp [List.countP_cons, yellow_of, List.take]

/-- Witness for C1 at Scenario A's state: the Meta policy emits
`[NS_yellow, all_red, EW_green]` and the prefix before the cross-axis
green (position 2) is exactly the yellow/all-red pair. -/
theorem C1_green_to_green_safety_witness :
    schedule default_params low_load_state SchedulingPolicy.META =
      Except.ok [⟨PhaseId.NS_yellow, 3, false⟩, ⟨PhaseId.all_red, 1, false⟩,
        ⟨PhaseId.EW_green, 11, true⟩] ∧
    ([⟨PhaseId.NS_yellow, 3, false⟩, ⟨PhaseId.all_red, 1, false⟩,
        ⟨PhaseId.EW_green, (11 : ℚ), true⟩] : ActionPlan).take 2 =
      [⟨yellow_of low_load_state.current_phase, default_params.yellow_duration, false⟩,
       ⟨PhaseId.all_red, default_params.all_red_duration, false⟩] := by
  have hplan : schedule default_params low_load_state SchedulingPolicy.META =
      Except.ok [⟨PhaseId.NS_yellow, 3, false⟩, ⟨PhaseId.all_red, 1, false⟩,
        ⟨PhaseId.EW_green, 11, true⟩] := by
    simp [schedule, has_urgent_emergency, select_policy, compute_average_queue_length,
      compute_queue_variance, round_robin_schedule, schedule_transition_with_yellow,
      yellow_of, sum_queues_for_phase, get_queues_for_phase, getQ, dict_get,
      List.lookup, default_params, low_load_state]
    norm_num
  have h := C1_green_to_green_safety default_params low_load_state
    SchedulingPolicy.META
    [⟨PhaseId.NS_yellow, 3, false⟩, ⟨PhaseId.all_red, 1, false⟩,
      ⟨PhaseId.EW_green, 11, true⟩]
    Axis.NS Axis.EW 2 (by simp) rfl hplan rfl (by decide)
  exact ⟨hplan, h.1⟩

/-- The green phase returned for a direction is never a yellow. -/
lemma is_green_not_yellow (g : PhaseId) (h : is_green g = true) :
    is_yellow g = false := by
  cases g <;> simp_all [is_green, is_yellow]

/-- C2: whenever some emergency vehicle is urgent (ETA within the
preempt buffer or a non-empty queue in its direction), any plan that
`schedule` returns -- under any policy argument -- ends in the green
phase that serves the direction of the selected emergency vehicle, and
that final phase is non-preemptable. -/
theorem C2_emergency_terminal (pp : PolicyParams) (s : IntersectionState)
    (pol : SchedulingPolicy) (plan : ActionPlan)
    (hu : has_urgent_emergency pp s = true)
    (hok : schedule pp s pol = Except.ok plan) :
    ∃ sel gph dur, select_emergency s.emergency = some sel ∧
      get_green_phase_for_direction sel.direction = Except.ok gph ∧
      is_green gph = true ∧
      plan.getLast? = some ⟨gph, dur, false⟩ := by
  simp only [schedule, hu, if_true] at hok
  simp only [handle_emergency] at hok
  split at hok
  · cases hok
  · rename_i sel hsel
    split at hok
    · cases hok
    · rename_i gph hg
      rw [Except.ok.injEq] at hok
      subst hok
      exact ⟨sel, gph, _, hsel, hg, get_green_is_green _ _ hg,
        List.getLast?_concat _⟩

/-- Witness for C2 at Scenario C's state (urgent northbound emergency
while `EW_green` is active). -/
theorem C2_emergency_terminal_witness :
    has_urgent_emergency default_params emergency_cross_state = true ∧
    (∃ sel gph dur,
      select_emergency emergency_cross_state.emergency = some sel ∧
      get_green_phase_for_direction sel.direction = Except.ok gph ∧
      is_green gph = true ∧
      ([⟨PhaseId.EW_yellow, 3, false⟩, ⟨PhaseId.all_red, 1, false⟩,
        ⟨PhaseId.NS_green, 15, false⟩] : ActionPlan).getLast? =
          some ⟨gph, dur, false⟩) := by
  have hu : has_urgent_emergency default_params emergency_cross_state = true := by
    simp [has_urgent_emergency, default_params, emergency_cross_state, getQ,
      dict_get, List.lookup]
  have hplan : schedule default_params emergency_cross_state SchedulingPolicy.META =
      Except.ok [⟨PhaseId.EW_yellow, 3, false⟩, ⟨PhaseId.all_red, 1, false⟩,
        ⟨PhaseId.NS_green, 15, false⟩] := by
    simp [schedule, has_urgent_emergency, handle_emergency, select_emergency,
      emergency_directions, distinct_dirs, pickMinBy, etaLt, etaPrioLt,
      get_green_phase_for_direction, schedule_transition_with_yellow, yellow_of,
      getQ, dict_get, List.lookup, default_params, emergency_cross_state]
    norm_num
  exact ⟨hu, C2_emergency_terminal default_params emergency_cross_state
    SchedulingPolicy.META _ hu hplan⟩

lemma trans_dur_ok (pp : PolicyParams) (cur target : PhaseId) :
    ∀ ph ∈ schedule_transition_with_yellow pp cur target, dur_ok pp ph := by
  intro ph hph
  simp only [schedule_transition_with_yellow] at hph
  by_cases hc : cur = PhaseId.all_red
  · simp [hc] at hph
    subst hph
    exact ⟨by simp [is_green], by simp [is_yellow], fun _ => rfl⟩
  · simp [hc] at hph
    rcases hph with rfl | rfl
    · refine ⟨fun h => ?_, fun _ => rfl, fun h => ?_⟩
      · exfalso
        cases cur <;> simp_all [yellow_of, is_green]
      · exfalso
        cases cur <;> simp_all [yellow_of]
    · exact ⟨by simp [is_green], by simp [is_yellow], fun _ => rfl⟩

lemma dur_ok_final_green (pp : PolicyParams) (g : PhaseId) (d : ℚ) (pe : Bool)
    (hg : is_green g = true) (h1 : pp.min_green ≤ d) (h2 : d ≤ pp.max_green) :
    dur_ok pp ⟨g, d, pe⟩ := by
  refine ⟨fun _ => ⟨h1, h2⟩, fun hy => ?_, fun ha => ?_⟩
  · exact absurd hy (by simp [is_green_not_yellow g hg])
  · exfalso
    have hgal : g = PhaseId.all_red := ha
    subst hgal
    simp [is_green] at hg

lemma clip_bounds_max_min (a b x : ℚ) (hab : a ≤ b) :
    a ≤ max a (min b x) ∧ max a (min b x) ≤ b :=
  ⟨le_max_left _ _, max_le hab (min_le_left _ _)⟩

lemma clip_bounds_min_max (a b x : ℚ) (hab : a ≤ b) :
    a ≤ min b (max a x) ∧ min b (max a x) ≤ b :=
  ⟨le_min hab (le_max_left _ _), min_le_left _ _⟩

lemma emergency_dur_bounds (mg mxg ecd : ℚ) (k : ℕ) (hmm : mg ≤ mxg)
    (hecd : mg ≤ ecd) (hk : 1 ≤ k) :
    mg ≤ min (ecd + ((k : ℚ) - 1) * 5) mxg ∧
      min (ecd + ((k : ℚ) - 1) * 5) mxg ≤ mxg := by
  have hk1 : (1 : ℚ) ≤ (k : ℚ) := by exact_mod_cast hk
  refine ⟨le_min ?_ hmm, min_le_right _ _⟩
  linarith

lemma mem_ite_trans_append (c : Prop) [Decidable c] (pp : PolicyParams)
    (cur target : PhaseId) (last ph : Phase)
    (hph : ph ∈ (if c then schedule_transition_with_yellow pp cur target
      else []) ++ [last]) :
    ph ∈ schedule_transition_with_yellow pp cur target ∨ ph = last := by
  rcases List.mem_append.mp hph with h | h
  · by_cases hc : c
    · rw [if_pos hc] at h
      exact Or.inl h
    · rw [if_neg hc] at h
      cases h
  · simp only [List.mem_singleton] at h
    exact Or.inr h

/-- C3 (amended): under parameters with `min_green ≤ max_green`,
`min_green ≤ emergency_clear_duration` and a cycle order made of
greens (all true of the defaults), every phase of every plan obeys the
duration discipline: greens in `[min_green, max_green]`, yellows equal
to `yellow_duration`, all-red equal to `all_red_duration`.  The frozen
claim fails for arbitrary parameters because the emergency green
duration is `min(emergency_clear_duration + 5*(k-1), max_green)` --
the code never clips it from below by `min_green`. -/
theorem C3_phase_durations (pp : PolicyParams) (s : IntersectionState)
    (pol : SchedulingPolicy) (plan : ActionPlan)
    (hmm : pp.min_green ≤ pp.max_green)
    (hecd : pp.min_green ≤ pp.emergency_clear_duration)
    (hcyc : ∀ ph ∈ pp.rr_cycle_order, is_green ph = true)
    (hok : schedule pp s pol = Except.ok plan) :
    ∀ ph ∈ plan, dur_ok pp ph := by
  simp only [schedule] at hok
  split at hok
  · simp only [handle_emergency] at hok
    split at hok
    · cases hok
    · rename_i sel hsel
      split at hok
      · cases hok
      · rename_i gph hg
        rw [Except.ok.injEq] at hok
        subst hok
        intro ph hph
        rcases mem_ite_trans_append _ pp s.current_phase gph _ ph hph with h | rfl
        · exact trans_dur_ok pp s.current_phase gph ph h
        · have hmem : sel ∈ s.emergency.filter fun ev => ev.direction = sel.direction :=
            List.mem_filter.mpr ⟨select_emergency_mem _ _ hsel, by simp⟩
          have hk : 1 ≤ (s.emergency.filter
              fun ev => ev.direction = sel.direction).length :=
            List.length_pos.mpr (List.ne_nil_of_mem hmem)
          obtain ⟨h1, h2⟩ := emergency_dur_bounds pp.min_green pp.max_green
            pp.emergency_clear_duration _ hmm hecd hk
          exact dur_ok_final_green pp gph _ false (get_green_is_green _ _ hg) h1 h2
  · split at hok
    · simp only [round_robin_schedule] at hok
      split at hok
      · cases hok
      · rename_i next hnext
        rw [Except.ok.injEq] at hok
        subst hok
        intro ph hph
        rcases mem_ite_trans_append _ pp s.current_phase next _ ph hph with h | rfl
        · exact trans_dur_ok pp s.current_phase next ph h
        · obtain ⟨h1, h2⟩ := clip_bounds_max_min pp.min_green pp.max_green _ hmm
          exact dur_ok_final_green pp next _ true
            (hcyc next (List.getElem?_mem hnext)) h1 h2
    · simp only [sjf_schedule] at hok
      split at hok
      · rw [Except.ok.injEq] at hok
        subst hok
        intro ph hph
        cases hph
      · rename_i c rest hcycle
        rw [Except.ok.injEq] at hok
        subst hok
        intro ph hph
        rcases mem_ite_trans_append _ pp s.current_phase _ _ ph hph with h | rfl
        · exact trans_dur_ok pp s.current_phase _ ph h
        · have hmem : pickMinBy
              (fun a b => decide (sjf_jobs pp s a < sjf_jobs pp s b)) c rest ∈
                pp.rr_cycle_order := by
            rw [hcycle]
            rcases pickMinBy_mem
              (fun a b => decide (sjf_jobs pp s a < sjf_jobs pp s b)) c rest with h | h
            · rw [h]
              exact List.mem_cons_self _ _
            · exact List.mem_cons_of_mem _ h
          obtain ⟨h1, h2⟩ := clip_bounds_max_min pp.min_green pp.max_green _ hmm
          exact dur_ok_final_green pp _ _ true (hcyc _ hmem) h1 h2
    · simp only [priority_schedule] at hok
      split at hok
      · cases hok
      · split at hok
        · cases hok
        · split at hok
          · cases hok
          · split at hok
            · cases hok
            · split at hok
              · cases hok
              · rename_i gph hg
                rw [Except.ok.injEq] at hok
                subst hok
                intro ph hph
                rcases mem_ite_trans_append _ pp s.current_phase gph _ ph hph with
                  h | rfl
                · exact trans_dur_ok pp s.current_phase gph ph h
                · obtain ⟨h1, h2⟩ :=
                    clip_bounds_min_max pp.min_green pp.max_green _ hmm
                  exact dur_ok_final_green pp gph _ true
                    (get_green_is_green _ _ hg) h1 h2
    · cases hok

/-- Counterexample to C3 as frozen: with `emergency_clear_duration = 1`
below `min_green = 7` (an arbitrary `PolicyParams` configuration), the
emergency green is emitted with duration 1, outside
`[min_green, max_green]`: the code clips the emergency duration only
from above by `max_green`, never from below by `min_green`. -/
theorem C3_counterexample :
    schedule short_clear_params short_clear_state SchedulingPolicy.META =
      Except.ok [⟨PhaseId.NS_green, 1, false⟩] ∧
    is_green PhaseId.NS_green = true ∧
    ¬ (short_clear_params.min_green ≤ (1 : ℚ)) := by
  refine ⟨?_, rfl, by norm_num [short_clear_params, default_params]⟩
  simp [schedule, has_urgent_emergency, handle_emergency, select_emergency,
    emergency_directions, distinct_dirs, pickMinBy, etaLt, etaPrioLt,
    get_green_phase_for_direction, schedule_transition_with_yellow, yellow_of,
    getQ, dict_get, List.lookup, short_clear_params, default_params,
    short_clear_state]
  norm_num

/-- Witness for the amended C3 at Scenario A's plan under the default
parameters. -/
theorem C3_phase_durations_witness :
    default_params.min_green ≤ default_params.max_green ∧
    default_params.min_green ≤ default_params.emergency_clear_duration ∧
    (∀ ph ∈ default_params.rr_cycle_order, is_green ph = true) ∧
    ∀ ph ∈ ([⟨PhaseId.NS_yellow, 3, false⟩, ⟨PhaseId.all_red, 1, false⟩,
      ⟨PhaseId.EW_green, 11, true⟩] : ActionPlan), dur_ok default_params ph := by
  have hmm : default_params.min_green ≤ default_params.max_green := by
    norm_num [default_params]
  have hecd : default_params.min_green ≤ default_params.emergency_clear_duration := by
    norm_num [default_params]
  have hcyc : ∀ ph ∈ default_params.rr_cycle_order, is_green ph = true := by
    intro ph hph
    simp [default_params] at hph
    rcases hph with rfl | rfl <;> rfl
  have hplan : schedule default_params low_load_state SchedulingPolicy.META =
      Except.ok [⟨PhaseId.NS_yellow, 3, false⟩, ⟨PhaseId.all_red, 1, false⟩,
        ⟨PhaseId.EW_green, 11, true⟩] := by
    simp [schedule, has_urgent_emergency, select_policy, compute_average_queue_length,
      compute_queue_variance, round_robin_schedule, schedule_transition_with_yellow,
      yellow_of, sum_queues_for_phase, get_queues_for_phase, getQ, dict_get,
      List.lookup, default_params, low_load_state]
    norm_num
  exact ⟨hmm, hecd, hcyc, C3_phase_durations default_params low_load_state
    SchedulingPolicy.META _ hmm hecd hcyc hplan⟩

/-- Counterexample to C4 as frozen: called with `current_phase =
NS_yellow`, the transition builder emits TWO phases -- the yellow again
(since `replace("green", "yellow")` leaves a yellow name unchanged)
followed by the all-red -- not the single all-red phase the claim
states. -/
theorem C4_counterexample :
    schedule_transition_with_yellow default_params PhaseId.NS_yellow
        PhaseId.EW_green =
      [⟨PhaseId.NS_yellow, 3, false⟩, ⟨PhaseId.all_red, 1, false⟩] ∧
    schedule_transition_with_yellow default_params PhaseId.NS_yellow
        PhaseId.EW_green ≠
      [⟨PhaseId.all_red, 1, false⟩] := by
  constructor
  · simp [schedule_transition_with_yellow, yellow_of, default_params]
  · intro h
    simp [schedule_transition_with_yellow, yellow_of, default_params] at h

/-- C4 (amended): for a yellow `current_phase` the transition builder
emits exactly two phases, `Phase(current yellow, yellow_duration,
preemptable=false)` then `Phase(all_red, all_red_duration,
preemptable=false)`; and for every `current_phase` and target it never
emits a green phase. -/
theorem C4_transition_builder (pp : PolicyParams) (cur target : PhaseId)
    (hy : is_yellow cur = true) :
    schedule_transition_with_yellow pp cur target =
      [⟨cur, pp.yellow_duration, false⟩,
       ⟨PhaseId.all_red, pp.all_red_duration, false⟩] ∧
    ∀ c2 : PhaseId, ∀ ph ∈ schedule_transition_with_yellow pp c2 target,
      is_green ph.phase = false := by
  constructor
  · cases cur <;> simp_all [is_yellow, schedule_transition_with_yellow, yellow_of]
  · intro c2 ph hph
    simp only [schedule_transition_with_yellow] at hph
    by_cases hc : c2 = PhaseId.all_red
    · simp [hc] at hph
      subst hph
      rfl
    · simp [hc] at hph
      rcases hph with rfl | rfl
      · cases c2 <;> simp [yellow_of, is_green]
      · rfl

/-- Witness for the amended C4 at `current_phase = EW_yellow`. -/
theorem C4_transition_builder_witness :
    schedule_transition_with_yellow default_params PhaseId.EW_yellow
        PhaseId.NS_green =
      [⟨PhaseId.EW_yellow, default_params.yellow_duration, false⟩,
       ⟨PhaseId.all_red, default_params.all_red_duration, false⟩] :=
  (C4_transition_builder default_params PhaseId.EW_yellow PhaseId.NS_green rfl).1

/-- Counterexample to C5 as frozen: on Scenario A's literal input the
Meta scheduler does select Round Robin, but the plan's final green
lasts `min_green + 2 * (queue E + queue W) = 7 + 4 = 11.0` seconds,
not the `7.0` the claim (following the spec) states. -/
theorem C5_counterexample :
    schedule default_params low_load_state SchedulingPolicy.META =
      Except.ok [⟨PhaseId.NS_yellow, 3, false⟩, ⟨PhaseId.all_red, 1, false⟩,
        ⟨PhaseId.EW_green, 11, true⟩] ∧
    ([⟨PhaseId.NS_yellow, 3, false⟩, ⟨PhaseId.all_red, 1, false⟩,
      ⟨PhaseId.EW_green, (11 : ℚ), true⟩] : ActionPlan) ≠
      [⟨PhaseId.NS_yellow, 3, false⟩, ⟨PhaseId.all_red, 1, false⟩,
        ⟨PhaseId.EW_green, 7, true⟩] := by
  constructor
  · simp [schedule, has_urgent_emergency, select_policy, compute_average_queue_length,
      compute_queue_variance, round_robin_schedule, schedule_transition_with_yellow,
      yellow_of, sum_queues_for_phase, get_queues_for_phase, getQ, dict_get,
      List.lookup, default_params, low_load_state]
    norm_num
  · intro h
    simp at h

/-- C5 (amended): on Scenario A's input (`queues = {N:1,E:1,S:1,W:1}`,
all arrival rates 0.02, no emergency, `current_phase = NS_green`,
default parameters) the Meta scheduler selects Round Robin and returns
exactly `[NS_yellow(3.0, np), all_red(1.0, np), EW_green(11.0, p)]`:
the green duration is `clip(min_green + 2*2, 7, 60) = 11.0`. -/
theorem C5_scenario_a :
    select_policy default_params low_load_state = SchedulingPolicy.ROUND_ROBIN ∧
    schedule default_params low_load_state SchedulingPolicy.META =
      Except.ok [⟨PhaseId.NS_yellow, 3, false⟩, ⟨PhaseId.all_red, 1, false⟩,
        ⟨PhaseId.EW_green, 11, true⟩] := by
  constructor
  · simp [select_policy, compute_average_queue_length, low_load_state, default_params]
    norm_num
  · simp [schedule, has_urgent_emergency, select_policy, compute_average_queue_length,
      compute_queue_variance, round_robin_schedule, schedule_transition_with_yellow,
      yellow_of, sum_queues_for_phase, get_queues_for_phase, getQ, dict_get,
      List.lookup, default_params, low_load_state]
    norm_num

lemma select_emergency_multi (evs : List EmergencyVehicle) (sel : EmergencyVehicle)
    (hsel : select_emergency evs = some sel)
    (hm : 1 < (emergency_directions evs).length) :
    ∀ ev ∈ evs, sel.time_to_intersection ≤ ev.time_to_intersection := by
  rcases evs with _ | ⟨e, rest⟩
  · cases hsel
  · simp only [select_emergency] at hsel
    rw [if_pos hm] at hsel
    cases hsel
    intro ev hev
    obtain ⟨h1, h2⟩ := pickMinBy_le_all etaLt
      (fun a b => a.time_to_intersection ≤ b.time_to_intersection)
      (fun a b c hab hbc => le_trans hab hbc) (fun a => le_refl _)
      eta_le_of_lt eta_le_of_not_lt e rest
    rcases List.mem_cons.mp hev with rfl | hev
    · exact h1
    · exact h2 ev hev

lemma select_emergency_single (evs : List EmergencyVehicle) (sel : EmergencyVehicle)
    (hsel : select_emergency evs = some sel)
    (hm : ¬ 1 < (emergency_directions evs).length) :
    ∀ ev ∈ evs, eta_prio_le sel ev := by
  rcases evs with _ | ⟨e, rest⟩
  · cases hsel
  · simp only [select_emergency] at hsel
    rw [if_neg hm] at hsel
    cases hsel
    intro ev hev
    obtain ⟨h1, h2⟩ := pickMinBy_le_all etaPrioLt eta_prio_le
      eta_prio_le_trans eta_prio_le_refl
      eta_prio_le_of_lt eta_prio_le_of_not_lt e rest
    rcases List.mem_cons.mp hev with rfl | hev
    · exact h1
    · exact h2 ev hev

/-- C6: the emergency handler's selection rule.  When the (urgent)
emergencies span more than one direction, the selected vehicle -- whose
direction becomes the target -- attains the smallest
`time_to_intersection` over the whole emergency set, the `priority`
field playing no role; when they all share one direction, the selected
vehicle minimizes the lexicographic pair
`(time_to_intersection, priority)`. -/
theorem C6_emergency_selection (s : IntersectionState) (sel : EmergencyVehicle)
    (hsel : select_emergency s.emergency = some sel) :
    sel ∈ s.emergency ∧
    (1 < (emergency_directions s.emergency).length →
      ∀ ev ∈ s.emergency, sel.time_to_intersection ≤ ev.time_to_intersection) ∧
    (¬ 1 < (emergency_directions s.emergency).length →
      ∀ ev ∈ s.emergency, eta_prio_le sel ev) :=
  ⟨select_emergency_mem _ _ hsel,
   fun hm => select_emergency_multi _ _ hsel hm,
   fun hm => select_emergency_single _ _ hsel hm⟩

/-- Witness for C6 at Scenario D's state: two emergencies on different
axes; FCFS on ETA selects the northbound vehicle (ETA 5 < 8). -/
theorem C6_emergency_selection_witness :
    select_emergency multi_emergency_state.emergency =
      some ⟨"N", 5, "EMG002", 1⟩ ∧
    ((⟨"N", 5, "EMG002", 1⟩ : EmergencyVehicle) ∈ multi_emergency_state.emergency ∧
     (1 < (emergency_directions multi_emergency_state.emergency).length →
       ∀ ev ∈ multi_emergency_state.emergency,
         (⟨"N", 5, "EMG002", 1⟩ : EmergencyVehicle).time_to_intersection ≤
           ev.time_to_intersection) ∧
     (¬ 1 < (emergency_directions multi_emergency_state.emergency).length →
       ∀ ev ∈ multi_emergency_state.emergency,
         eta_prio_le ⟨"N", 5, "EMG002", 1⟩ ev)) := by
  have hsel : select_emergency multi_emergency_state.emergency =
      some ⟨"N", 5, "EMG002", 1⟩ := by
    simp [select_emergency, emergency_directions, distinct_dirs, pickMinBy,
      etaLt, multi_emergency_state]
    norm_num
  exact ⟨hsel, C6_emergency_selection multi_emergency_state _ hsel⟩

/-- C7: with no urgent emergency, policy selection follows the
documented cascade -- Priority when emergencies exist (but are not
urgent), else Round Robin under the mean-queue threshold, else SJF
above the variance threshold, else Priority -- and `schedule` under the
Meta policy dispatches to exactly the selected algorithm. -/
theorem C7_meta_dispatch (pp : PolicyParams) (s : IntersectionState)
    (hu : has_urgent_emergency pp s = false) :
    (s.emergency ≠ [] → select_policy pp s = SchedulingPolicy.PRIORITY) ∧
    (s.emergency = [] →
      compute_average_queue_length s < pp.low_load_threshold →
      select_policy pp s = SchedulingPolicy.ROUND_ROBIN) ∧
    (s.emergency = [] →
      ¬ compute_average_queue_length s < pp.low_load_threshold →
      pp.high_variance_threshold < compute_queue_variance s →
      select_policy pp s = SchedulingPolicy.SHORTEST_JOB_FIRST) ∧
    (s.emergency = [] →
      ¬ compute_average_queue_length s < pp.low_load_threshold →
      ¬ pp.high_variance_threshold < compute_queue_variance s →
      select_policy pp s = SchedulingPolicy.PRIORITY) ∧
    schedule pp s SchedulingPolicy.META =
      (match select_policy pp s with
       | SchedulingPolicy.ROUND_ROBIN => round_robin_schedule pp s
       | SchedulingPolicy.SHORTEST_JOB_FIRST => sjf_schedule pp s
       | _ => priority_schedule pp s) := by
  refine ⟨?_, ?_, ?_, ?_, ?_⟩
  · intro h
    simp [select_policy, h]
  · intro h hl
    simp [select_policy, h, hl]
  · intro h hl hv
    simp [select_policy, h, hl, hv]
  · intro h hl hv
    simp [select_policy, h, hl, hv]
  · simp only [schedule, hu, Bool.false_eq_true, if_false]
    cases hp : select_policy pp s
    · rfl
    · rfl
    · rfl
    · exact absurd hp (select_policy_ne_meta pp s)

/-- Witness for C7 at Scenario A's state: no emergency, mean queue
1 < 2, so Round Robin is selected and Meta dispatches to it. -/
theorem C7_meta_dispatch_witness :
    has_urgent_emergency default_params low_load_state = false ∧
    select_policy default_params low_load_state = SchedulingPolicy.ROUND_ROBIN ∧
    schedule default_params low_load_state SchedulingPolicy.META =
      (match select_policy default_params low_load_state with
       | SchedulingPolicy.ROUND_ROBIN => round_robin_schedule default_params low_load_state
       | SchedulingPolicy.SHORTEST_JOB_FIRST => sjf_schedule default_params low_load_state
       | _ => priority_schedule default_params low_load_state) := by
  have hu : has_urgent_emergency default_params low_load_state = false := by
    simp [has_urgent_emergency, low_load_state]
  have h := C7_meta_dispatch default_params low_load_state hu
  refine ⟨hu, h.2.1 rfl ?_, h.2.2.2.2⟩
  simp [compute_average_queue_length, low_load_state, default_params]
  norm_num

lemma round_robin_total (pp : PolicyParams) (s : IntersectionState)
    (hcyc : pp.rr_cycle_order ≠ []) :
    ∃ plan, round_robin_schedule pp s = Except.ok plan ∧ plan ≠ [] := by
  have hlen : 0 < pp.rr_cycle_order.length := List.length_pos.mpr hcyc
  cases hrr : round_robin_schedule pp s with
  | error e =>
    exfalso
    simp only [round_robin_schedule] at hrr
    split at hrr
    · rename_i hnone
      rw [List.getElem?_eq_none_iff] at hnone
      split at hnone
      · exact absurd hnone (not_le.mpr (Nat.mod_lt _ hlen))
      · exact absurd hnone (not_le.mpr hlen)
    · cases hrr
  | ok plan =>
    refine ⟨plan, rfl, ?_⟩
    simp only [round_robin_schedule] at hrr
    split at hrr
    · cases hrr
    · rw [Except.ok.injEq] at hrr
      rw [← hrr]
      simp

lemma sjf_total (pp : PolicyParams) (s : IntersectionState)
    (hcyc : pp.rr_cycle_order ≠ []) :
    ∃ plan, sjf_schedule pp s = Except.ok plan ∧ plan ≠ [] := by
  rcases hc : pp.rr_cycle_order with _ | ⟨c, rest⟩
  · exact absurd hc hcyc
  · obtain ⟨plan, hplan⟩ : ∃ plan, sjf_schedule pp s = Except.ok plan := by
      simp only [sjf_schedule, hc]
      exact ⟨_, rfl⟩
    refine ⟨plan, hplan, ?_⟩
    simp only [sjf_schedule, hc] at hplan
    rw [Except.ok.injEq] at hplan
    rw [← hplan]
    simp

lemma emergency_priority_bonus_ok (d : String) (acc : ℚ)
    (evs : List EmergencyVehicle) (hprio : ∀ ev ∈ evs, ev.priority ≠ 0) :
    ∃ q, emergency_priority_bonus d acc evs = Except.ok q := by
  induction evs generalizing acc with
  | nil => exact ⟨acc, rfl⟩
  | cons ev rest ih =>
    simp only [emergency_priority_bonus]
    by_cases h1 : ev.direction = d
    · rw [if_pos h1, if_neg (hprio ev (List.mem_cons_self _ _))]
      exact ih _ fun e he => hprio e (List.mem_cons_of_mem _ he)
    · rw [if_neg h1]
      exact ih _ fun e he => hprio e (List.mem_cons_of_mem _ he)

lemma calculate_direction_priority_ok (s : IntersectionState) (d : String)
    (hprio : ∀ ev ∈ s.emergency, ev.priority ≠ 0) :
    ∃ q, calculate_direction_priority s d = Except.ok q := by
  simp only [calculate_direction_priority]
  exact emergency_priority_bonus_ok d _ s.emergency hprio

lemma best_direction_of_mem (pN pE pS pW : ℚ) :
    best_direction_of pN pE pS pW = "N" ∨ best_direction_of pN pE pS pW = "E" ∨
    best_direction_of pN pE pS pW = "S" ∨ best_direction_of pN pE pS pW = "W" := by
  rcases pickMinBy_mem (fun a b =>
      decide (direction_priorities_key pN pE pS pW b <
        direction_priorities_key pN pE pS pW a)) "N" ["E", "S", "W"] with h | h
  · exact Or.inl h
  · simp only [List.mem_cons, List.not_mem_nil, or_false] at h
    exact Or.inr h

lemma priority_total (pp : PolicyParams) (s : IntersectionState)
    (hprio : ∀ ev ∈ s.emergency, ev.priority ≠ 0) :
    ∃ plan, priority_schedule pp s = Except.ok plan ∧ plan ≠ [] := by
  obtain ⟨pN, hN⟩ := calculate_direction_priority_ok s "N" hprio
  obtain ⟨pE, hE⟩ := calculate_direction_priority_ok s "E" hprio
  obtain ⟨pS, hS⟩ := calculate_direction_priority_ok s "S" hprio
  obtain ⟨pW, hW⟩ := calculate_direction_priority_ok s "W" hprio
  have hg : ∃ g, get_green_phase_for_direction (best_direction_of pN pE pS pW) =
      Except.ok g := by
    rcases best_direction_of_mem pN pE pS pW with h | h | h | h <;> rw [h] <;>
      exact ⟨_, rfl⟩
  obtain ⟨g, hgreen⟩ := hg
  obtain ⟨plan, hplan⟩ : ∃ plan, priority_schedule pp s = Except.ok plan := by
    simp only [priority_schedule, hN, hE, hS, hW, hgreen]
    exact ⟨_, rfl⟩
  refine ⟨plan, hplan, ?_⟩
  simp only [priority_schedule, hN, hE, hS, hW, hgreen] at hplan
  rw [Except.ok.injEq] at hplan
  rw [← hplan]
  simp

lemma handle_emergency_total (pp : PolicyParams) (s : IntersectionState)
    (hne : s.emergency ≠ [])
    (hdir : ∀ ev ∈ s.emergency, ev.direction = "N" ∨ ev.direction = "S" ∨
      ev.direction = "E" ∨ ev.direction = "W") :
    ∃ plan, handle_emergency pp s = Except.ok plan ∧ plan ≠ [] := by
  obtain ⟨sel, hsel⟩ := select_emergency_nonempty _ hne
  have hmem := select_emergency_mem _ _ hsel
  have hg : ∃ g, get_green_phase_for_direction sel.direction = Except.ok g := by
    rcases hdir sel hmem with h | h | h | h <;> rw [h] <;> exact ⟨_, rfl⟩
  obtain ⟨g, hgreen⟩ := hg
  obtain ⟨plan, hplan⟩ : ∃ plan, handle_emergency pp s = Except.ok plan := by
    simp only [handle_emergency, hsel, hgreen]
    exact ⟨_, rfl⟩
  refine ⟨plan, hplan, ?_⟩
  simp only [handle_emergency, hsel, hgreen] at hplan
  rw [Except.ok.injEq] at hplan
  rw [← hplan]
  simp

/-- C8 (amended): for every state whose emergency directions are among
N/S/E/W and every policy, `schedule` returns a non-empty plan whenever
`rr_cycle_order` is non-empty.  The frozen claim fails: with an empty
cycle order, SJF silently returns an empty plan even for a state with
directions and work, and Round Robin dies with an uncaught IndexError;
no `EmptyPlan` error exists in the code. -/
theorem C8_nonempty_plans (pp : PolicyParams) (s : IntersectionState)
    (pol : SchedulingPolicy)
    (hdir : ∀ ev ∈ s.emergency, ev.direction = "N" ∨ ev.direction = "S" ∨
      ev.direction = "E" ∨ ev.direction = "W")
    (hprio : ∀ ev ∈ s.emergency, ev.priority ≠ 0)
    (hcyc : pp.rr_cycle_order ≠ []) :
    ∃ plan, schedule pp s pol = Except.ok plan ∧ plan ≠ [] := by
  simp only [schedule]
  split
  · rename_i hu
    exact handle_emergency_total pp s (urgent_nonempty pp s hu) hdir
  · split
    · exact round_robin_total pp s hcyc
    · exact sjf_total pp s hcyc
    · exact priority_total pp s hprio
    · rename_i hmeta
      exfalso
      by_cases hp : pol = SchedulingPolicy.META
      · rw [if_pos hp] at hmeta
        exact select_policy_ne_meta pp s hmeta
      · rw [if_neg hp] at hmeta
        exact hp hmeta

/-- The totality hypothesis on priorities is necessary: a single
non-urgent emergency with `priority == 0` makes the Priority scorer
execute `100 / 0` for its direction, so `schedule` (Meta resolves to
Priority because the emergency set is non-empty) surfaces
`ZeroDivisionError` and returns no plan. -/
lemma schedule_zero_priority_division :
    has_urgent_emergency default_params zero_priority_state = false ∧
    schedule default_params zero_priority_state SchedulingPolicy.META =
      Except.error SchedError.zeroDivisionError := by
  constructor
  · simp [has_urgent_emergency, zero_priority_state, default_params, getQ, dict_get,
      List.lookup]
    norm_num
  · simp [schedule, has_urgent_emergency, select_policy, priority_schedule,
      calculate_direction_priority, emergency_priority_bonus, getQ, dict_get,
      List.lookup, default_params, zero_priority_state]
    norm_num

/-- Counterexample to C8 as frozen: with an empty `rr_cycle_order` and
a state that clearly has a direction with queued vehicles, SJF returns
`ok []` -- a silently empty plan, not an `EmptyPlan` error -- and Round
Robin raises an uncaught IndexError (`cycle_order[0]` on an empty
list). -/
theorem C8_counterexample :
    nonzero_queue_state.queues ≠ [] ∧
    schedule empty_cycle_params nonzero_queue_state
      SchedulingPolicy.SHORTEST_JOB_FIRST = Except.ok [] ∧
    schedule empty_cycle_params nonzero_queue_state
      SchedulingPolicy.ROUND_ROBIN = Except.error SchedError.indexError := by
  refine ⟨by simp [nonzero_queue_state], ?_, ?_⟩
  · simp [schedule, has_urgent_emergency, sjf_schedule, empty_cycle_params,
      default_params, nonzero_queue_state]
  · simp [schedule, has_urgent_emergency, round_robin_schedule, empty_cycle_params,
      default_params, nonzero_queue_state]

/-- Witness for the amended C8 with the Priority policy on Scenario A's
state under default parameters. -/
theorem C8_nonempty_plans_witness :
    (∀ ev ∈ low_load_state.emergency, ev.direction = "N" ∨ ev.direction = "S" ∨
      ev.direction = "E" ∨ ev.direction = "W") ∧
    (∀ ev ∈ low_load_state.emergency, ev.priority ≠ 0) ∧
    default_params.rr_cycle_order ≠ [] ∧
    ∃ plan, schedule default_params low_load_state SchedulingPolicy.PRIORITY =
      Except.ok plan ∧ plan ≠ [] := by
  have hdir : ∀ ev ∈ low_load_state.emergency, ev.direction = "N" ∨
      ev.direction = "S" ∨ ev.direction = "E" ∨ ev.direction = "W" := by
    simp [low_load_state]
  have hprio : ∀ ev ∈ low_load_state.emergency, ev.priority ≠ 0 := by
    simp [low_load_state]
  have hcyc : default_params.rr_cycle_order ≠ [] := by
    simp [default_params]
  exact ⟨hdir, hprio, hcyc,
    C8_nonempty_plans default_params low_load_state SchedulingPolicy.PRIORITY
      hdir hprio hcyc⟩

/-- C9: if the state has an urgent emergency and the vehicle the
handler selects has a direction string outside {N, E, S, W}, then
`schedule` raises the Unknown-direction error instead of returning a
plan, whatever the policy argument. -/
theorem C9_unknown_direction (pp : PolicyParams) (s : IntersectionState)
    (pol : SchedulingPolicy) (sel : EmergencyVehicle)
    (hu : has_urgent_emergency pp s = true)
    (hsel : select_emergency s.emergency = some sel)
    (hbad : ¬(sel.direction = "N" ∨ sel.direction = "S" ∨ sel.direction = "E" ∨
      sel.direction = "W")) :
    schedule pp s pol = Except.error (SchedError.unknownDirection sel.direction) := by
  simp only [schedule, hu, if_true]
  simp only [handle_emergency, hsel, get_green_err sel.direction hbad]

/-- Witness for C9: the single urgent emergency comes from direction
"X"; `schedule` surfaces the Unknown-direction error. -/
theorem C9_unknown_direction_witness :
    has_urgent_emergency default_params bad_direction_state = true ∧
    select_emergency bad_direction_state.emergency =
      some ⟨"X", 1, "EMG003", 1⟩ ∧
    schedule default_params bad_direction_state SchedulingPolicy.META =
      Except.error (SchedError.unknownDirection "X") := by
  have hu : has_urgent_emergency default_params bad_direction_state = true := by
    simp [has_urgent_emergency, bad_direction_state, default_params, getQ, dict_get]
  have hsel : select_emergency bad_direction_state.emergency =
      some ⟨"X", 1, "EMG003", 1⟩ := by
    simp [select_emergency, emergency_directions, distinct_dirs, pickMinBy,
      bad_direction_state]
  exact ⟨hu, hsel, C9_unknown_direction default_params bad_direction_state
    SchedulingPolicy.META _ hu hsel (by simp)⟩

/-- C10: `simulate_one_step` on a non-empty plan only moves
`current_phase` to the first phase's name and advances `sim_time` by
its duration, leaving queues, waiting times, arrival rates and
emergencies untouched; on an empty plan it returns the state
unchanged. -/
theorem C10_simulate_one_step (s : IntersectionState) (plan : ActionPlan) :
    (plan = [] → simulate_one_step s plan = s) ∧
    ∀ ph rest, plan = ph :: rest →
      (simulate_one_step s plan).queues = s.queues ∧
      (simulate_one_step s plan).waiting_times = s.waiting_times ∧
      (simulate_one_step s plan).arrival_rates = s.arrival_rates ∧
      (simulate_one_step s plan).emergency = s.emergency ∧
      (simulate_one_step s plan).current_phase = ph.phase ∧
      (simulate_one_step s plan).sim_time = s.sim_time + ph.duration := by
  constructor
  · intro h
    subst h
    rfl
  · intro ph rest h
    subst h
    exact ⟨rfl, rfl, rfl, rfl, rfl, rfl⟩

/-- Witness for C10: the empty plan is a fixed point, and a singleton
`NS_green(15)` plan only changes phase and time. -/
theorem C10_simulate_one_step_witness :
    simulate_one_step low_load_state [] = low_load_state ∧
    (simulate_one_step emergency_cross_state
      [⟨PhaseId.NS_green, 15, true⟩]).current_phase = PhaseId.NS_green ∧
    (simulate_one_step emergency_cross_state
      [⟨PhaseId.NS_green, 15, true⟩]).sim_time =
        emergency_cross_state.sim_time + 15 ∧
    (simulate_one_step emergency_cross_state
      [⟨PhaseId.NS_green, 15, true⟩]).queues = emergency_cross_state.queues := by
  have h1 := (C10_simulate_one_step low_load_state []).1 rfl
  have h2 := (C10_simulate_one_step emergency_cross_state
    [⟨PhaseId.NS_green, 15, true⟩]).2 ⟨PhaseId.NS_green, 15, true⟩ [] rfl
  exact ⟨h1, h2.2.2.2.2.1, h2.2.2.2.2.2, h2.1⟩

end TrafficSched
